import Mathlib

/-!
Shallow embedding of the planner service of the Agentic-Cloud-Cluster
repository (src/planner_py/planner_server.py), together with the parts of
the resource-aware placement design that its specification describes, for
checking the specification's claims against the code.
-/

namespace Scheduler

/-- Modelled from the spec: the gRPC message types (`scheduler_pb2`) are
generated code not present under `src/`.  The observed task message
carries `id` and `estimated_sec` (spec §6); the resource-request fields
(`cpu_request`, `memory_request`, `gpu_request`) are the additions the
spec (§6, §9) says a real placement needs.  The stub server reads only
`id` and `estimated_sec`. -/
structure Task where
  id : String := ""
  estimated_sec : ℚ := 0
  cpu_request : ℚ := 0
  memory_request : ℚ := 0
  gpu_request : ℚ := 0
  deriving Inhabited, DecidableEq

/-- Modelled from the spec: the observed worker message carries only `id`
(spec §6); the per-dimension capacity and the reported running-task
allocation sums are the registry fields of spec §3.  The stub server
reads only `id`. -/
structure Worker where
  id : String := ""
  capacity_cpu : ℚ := 0
  capacity_mem : ℚ := 0
  capacity_gpu : ℚ := 0
  used_cpu : ℚ := 0
  used_mem : ℚ := 0
  used_gpu : ℚ := 0
  deriving Inhabited, DecidableEq

/-- Modelled from the spec: the planning request contract of spec §6,
`{tasks, workers}`. -/
structure PlanRequest where
  tasks : List Task := []
  workers : List Worker := []
  deriving Inhabited, DecidableEq

/-- Modelled from the spec: one assignment entry of the response contract
of spec §6.  Proto3 scalar fields default to the empty string and zero,
which the defaults record. -/
structure Assignment where
  task_id : String := ""
  worker_id : String := ""
  start_unix : ℤ := 0
  est_duration_sec : ℤ := 0
  deriving Inhabited, DecidableEq

/-- Modelled from the spec: the planning response contract of spec §6
(`plan_id`, `status_message`, `assignments`); `unplaced_task_id` is the
Plan field of spec §3, which the observed contract does not carry and the
stub therefore never populates. -/
structure PlanResponse where
  plan_id : String := ""
  status_message : String := ""
  assignments : List Assignment := []
  unplaced_task_id : List String := []
  deriving Inhabited, DecidableEq

/-- Python `int(x)` on the rational embedding of a proto double:
truncation toward zero. -/
def pyInt (q : ℚ) : ℤ := Int.tdiv q.num q.den

/-- The loop of `PlannerServicer.Plan`: `for i, t in enumerate(request.tasks)`
adds one `Assignment` per task with `task_id = t.id`; when the worker list
is non-empty it also sets `worker_id = workers[i % len(workers)].id`,
`start_unix = 0` and `est_duration_sec = int(t.estimated_sec)`, otherwise
those fields keep their proto defaults.  `i` is the running loop index. -/
def planLoop (workers : List Worker) : Nat → List Task → List Assignment
  | _, [] => []
  | i, t :: ts =>
      (if 0 < workers.length then
        { task_id := t.id
          worker_id := (workers.getD (i % workers.length) default).id
          start_unix := 0
          est_duration_sec := pyInt t.estimated_sec }
      else
        { task_id := t.id }) :: planLoop workers (i + 1) ts

/-- Embedding of `PlannerServicer.Plan` from `src/planner_py/planner_server.py`:
fixed `plan_id` and `status_message`, round-robin assignments, and no
unplaced list. -/
def PlannerServicer.Plan (request : PlanRequest) : PlanResponse :=
  { plan_id := "plan-stub-1"
    status_message := "stub plan"
    assignments := planLoop request.workers 0 request.tasks
    unplaced_task_id := [] }

theorem planLoop_length (workers : List Worker) (i : Nat) (ts : List Task) :
    (planLoop workers i ts).length = ts.length := by
  induction ts generalizing i with
  | nil => rfl
  | cons t ts ih => simp [planLoop, ih]

theorem planLoop_map_task_id (workers : List Worker) (i : Nat) (ts : List Task) :
    (planLoop workers i ts).map Assignment.task_id = ts.map Task.id := by
  induction ts generalizing i with
  | nil => rfl
  | cons t ts ih =>
      simp only [planLoop, List.map_cons, ih]
      split <;> rfl

theorem planLoop_start_unix (workers : List Worker) (i : Nat) (ts : List Task)
    (a : Assignment) (ha : a ∈ planLoop workers i ts) : a.start_unix = 0 := by
  induction ts generalizing i with
  | nil => simp [planLoop] at ha
  | cons t ts ih =>
      simp only [planLoop, List.mem_cons] at ha
      rcases ha with h | h
      · subst h; split <;> rfl
      · exact ih _ h

theorem planLoop_nil_workers (i : Nat) (ts : List Task) :
    planLoop [] i ts = ts.map (fun t =>
      { task_id := t.id, worker_id := "", start_unix := 0, est_duration_sec := 0 }) := by
  induction ts generalizing i with
  | nil => rfl
  | cons t ts ih => simp [planLoop, ih]

theorem planLoop_getD (workers : List Worker) (hw : workers ≠ [])
    (ts : List Task) (i j : Nat) (hj : j < ts.length) :
    (planLoop workers i ts).getD j default
      = { task_id := (ts.getD j default).id
          worker_id := (workers.getD ((i + j) % workers.length) default).id
          start_unix := 0
          est_duration_sec := pyInt (ts.getD j default).estimated_sec } := by
  induction ts generalizing i j with
  | nil => simp at hj
  | cons t ts ih =>
      have hlen : 0 < workers.length := List.length_pos.mpr hw
      cases j with
      | zero => simp [planLoop, hlen]
      | succ j =>
          have hj' : j < ts.length := Nat.lt_of_succ_lt_succ hj
          have := ih (i + 1) j hj'
          simp only [planLoop, hlen, if_pos, List.getD_cons_succ]
          rw [this]
          have harith : i + 1 + j = i + (j + 1) := by omega
          rw [harith]

/-! Concrete fixtures used to instantiate the theorems below. -/

def tOne : Task := { id := "t1", estimated_sec := 5 }

def tTwo : Task := { id := "t2", estimated_sec := 7 }

def wOne : Worker := { id := "w1", capacity_cpu := 8, capacity_mem := 16 }

def reqCompl : PlanRequest := { tasks := [tOne, tTwo], workers := [wOne] }

def reqComplCopy : PlanRequest := { tasks := [tOne, tTwo], workers := [wOne] }

def reqNoWorkers : PlanRequest := { tasks := [tOne], workers := [] }

/-- C1: every planning call returns its tasks partitioned between
`assignments` and `unplaced_task_id`: the counts add up to the input
count, and (for a batch with distinct task ids) each input task's id
occurs in exactly one assignment and never in the unplaced list. -/
theorem plan_completeness (req : PlanRequest) :
    (PlannerServicer.Plan req).assignments.length
        + (PlannerServicer.Plan req).unplaced_task_id.length = req.tasks.length
    ∧ ∀ t ∈ req.tasks, (req.tasks.map Task.id).Nodup →
        ((PlannerServicer.Plan req).assignments.map Assignment.task_id).count t.id = 1
        ∧ (PlannerServicer.Plan req).unplaced_task_id.count t.id = 0 := by
  constructor
  · simp [PlannerServicer.Plan, planLoop_length]
  · intro t ht hnod
    constructor
    · have hmap : (PlannerServicer.Plan req).assignments.map Assignment.task_id
          = req.tasks.map Task.id := planLoop_map_task_id req.workers 0 req.tasks
      rw [hmap]
      exact List.count_eq_one_of_mem hnod (List.mem_map_of_mem Task.id ht)
    · simp [PlannerServicer.Plan]

/-- Witness for C1 at a concrete two-task request. -/
theorem plan_completeness_witness :
    ((PlannerServicer.Plan reqCompl).assignments.map Assignment.task_id).count tOne.id = 1
    ∧ (PlannerServicer.Plan reqCompl).unplaced_task_id.count tOne.id = 0 :=
  (plan_completeness reqCompl).2 tOne (by simp [reqCompl])
    (by simp [reqCompl, tOne, tTwo])

/-- C4: planning is deterministic — the stub's `Plan` is a pure function
of the request's task and worker lists, so identical snapshots and
batches yield identical responses. -/
theorem plan_deterministic (r1 r2 : PlanRequest)
    (ht : r1.tasks = r2.tasks) (hw : r1.workers = r2.workers) :
    PlannerServicer.Plan r1 = PlannerServicer.Plan r2 := by
  cases r1
  cases r2
  cases ht
  cases hw
  rfl

/-- Witness for C4 at two separately constructed but equal requests. -/
theorem plan_deterministic_witness :
    PlannerServicer.Plan reqCompl = PlannerServicer.Plan reqComplCopy :=
  plan_deterministic reqCompl reqComplCopy rfl rfl

/-- C8: the code never sets `start_time = now` — every assignment the stub
emits carries `start_unix = 0`, whatever the request (and the request
carries no start hint to pass through). -/
theorem plan_start_unix_always_zero (req : PlanRequest) (a : Assignment)
    (ha : a ∈ (PlannerServicer.Plan req).assignments) : a.start_unix = 0 :=
  planLoop_start_unix req.workers 0 req.tasks a ha

/-- Witness for C8 at the first assignment of a concrete request. -/
theorem plan_start_unix_always_zero_witness :
    ({ task_id := "t1", worker_id := "w1", start_unix := 0,
       est_duration_sec := 5 } : Assignment).start_unix = 0 :=
  plan_start_unix_always_zero reqCompl _ (by decide)

/-- C9: with a non-empty worker list the stub returns one assignment per
task in input order; the i-th assignment carries the i-th task's id, the
id of worker `i % |workers|`, and the truncated estimated seconds. -/
theorem plan_round_robin (req : PlanRequest) (hw : req.workers ≠ [])
    (i : Nat) (hi : i < req.tasks.length) :
    (PlannerServicer.Plan req).assignments.length = req.tasks.length
    ∧ (PlannerServicer.Plan req).assignments.getD i default
        = { task_id := (req.tasks.getD i default).id
            worker_id := (req.workers.getD (i % req.workers.length) default).id
            start_unix := 0
            est_duration_sec := pyInt (req.tasks.getD i default).estimated_sec } := by
  refine ⟨by simp [PlannerServicer.Plan, planLoop_length], ?_⟩
  have h := planLoop_getD req.workers hw req.tasks 0 i hi
  simpa [PlannerServicer.Plan] using h

/-- Witness for C9 at index 1 of a concrete two-task, one-worker request. -/
theorem plan_round_robin_witness :
    (PlannerServicer.Plan reqCompl).assignments.length = reqCompl.tasks.length
    ∧ (PlannerServicer.Plan reqCompl).assignments.getD 1 default
        = { task_id := (reqCompl.tasks.getD 1 default).id
            worker_id := (reqCompl.workers.getD (1 % reqCompl.workers.length) default).id
            start_unix := 0
            est_duration_sec := pyInt (reqCompl.tasks.getD 1 default).estimated_sec } :=
  plan_round_robin reqCompl (by simp [reqCompl]) 1 (by simp [reqCompl])

/-- C10: `plan_id` and `status_message` are the constants `"plan-stub-1"`
and `"stub plan"` on every call, the unplaced list is always empty, and
with an empty worker list every task still yields an assignment whose
`worker_id`, `start_unix` and `est_duration_sec` stay at their proto
defaults. -/
theorem plan_stub_constants (req : PlanRequest) :
    (PlannerServicer.Plan req).plan_id = "plan-stub-1"
    ∧ (PlannerServicer.Plan req).status_message = "stub plan"
    ∧ (PlannerServicer.Plan req).unplaced_task_id = []
    ∧ (req.workers = [] →
        (PlannerServicer.Plan req).assignments
          = req.tasks.map (fun t =>
              { task_id := t.id, worker_id := "", start_unix := 0,
                est_duration_sec := 0 })) := by
  refine ⟨rfl, rfl, rfl, fun hw => ?_⟩
  simp [PlannerServicer.Plan, hw, planLoop_nil_workers]

/-- Witness for C10 at a concrete request with no workers. -/
theorem plan_stub_constants_witness :
    (PlannerServicer.Plan reqNoWorkers).assignments
      = reqNoWorkers.tasks.map (fun t =>
          { task_id := t.id, worker_id := "", start_unix := 0,
            est_duration_sec := 0 }) :=
  (plan_stub_constants reqNoWorkers).2.2.2 rfl

/-- Requested cpu of the task with a given id (0 if the id is unknown),
used to total what a plan allocates on one worker. -/
def taskCpuRequest (tasks : List Task) (tid : String) : ℚ :=
  ((tasks.find? (fun t => t.id == tid)).map Task.cpu_request).getD 0

/-- Total cpu the response's assignments place on the worker `wid`,
summing the requesting tasks' cpu over the assignments naming `wid`. -/
def workerCpuAllocated (req : PlanRequest) (resp : PlanResponse) (wid : String) : ℚ :=
  ((resp.assignments.filter (fun a => a.worker_id == wid)).map
    (fun a => taskCpuRequest req.tasks a.task_id)).sum

namespace SpecModel

/-- Modelled from the spec: a worker's state during one planning pass —
its registry record plus the allocations already committed to it in this
pass (spec §4.3). -/
structure WorkerState where
  worker : Worker
  committed_cpu : ℚ := 0
  committed_mem : ℚ := 0
  committed_gpu : ℚ := 0
  deriving Inhabited, DecidableEq

/-- Modelled from the spec: residual cpu = capacity − reported running
allocations − allocations committed in this pass (spec §4.3). -/
def residualCpu (s : WorkerState) : ℚ :=
  s.worker.capacity_cpu - s.worker.used_cpu - s.committed_cpu

/-- Modelled from the spec: residual memory, as for cpu. -/
def residualMem (s : WorkerState) : ℚ :=
  s.worker.capacity_mem - s.worker.used_mem - s.committed_mem

/-- Modelled from the spec: residual gpu, as for cpu. -/
def residualGpu (s : WorkerState) : ℚ :=
  s.worker.capacity_gpu - s.worker.used_gpu - s.committed_gpu

/-- Modelled from the spec: a worker is a candidate for a task iff its
residual capacity covers the task's request in all three dimensions
(spec §4.3). -/
def isCandidate (s : WorkerState) (t : Task) : Prop :=
  t.cpu_request ≤ residualCpu s ∧ t.memory_request ≤ residualMem s
    ∧ t.gpu_request ≤ residualGpu s

instance (s : WorkerState) (t : Task) : Decidable (isCandidate s t) := by
  unfold isCandidate
  infer_instance

/-- Fraction `r / c`, taken to be 0 for a dimension of zero capacity. -/
def frac (r c : ℚ) : ℚ := if c = 0 then 0 else r / c

/-- Modelled from the spec: the squared fragmentation score of placing
task `t` on worker state `s` — the squared Euclidean norm of the
post-assignment residual fraction vector (residual/capacity per
dimension, spec §4.3).  Minimizing it is equivalent to minimizing the
Euclidean norm itself. -/
def scoreSq (s : WorkerState) (t : Task) : ℚ :=
  frac (residualCpu s - t.cpu_request) s.worker.capacity_cpu ^ 2
    + frac (residualMem s - t.memory_request) s.worker.capacity_mem ^ 2
    + frac (residualGpu s - t.gpu_request) s.worker.capacity_gpu ^ 2

/-- Largest value of a per-worker quantity over the fleet, 0 when empty. -/
def fleetMax (f : Worker → ℚ) (ws : List Worker) : ℚ := (ws.map f).foldr max 0

/-- Modelled from the spec: squared L2 norm of a task's normalized
resource request vector — each request divided by the largest capacity
present in the snapshot for that dimension (spec §4.3, §4.2); the sort
key of the largest-first processing order of spec §4.3. -/
def normRequestSq (ws : List Worker) (t : Task) : ℚ :=
  frac t.cpu_request (fleetMax Worker.capacity_cpu ws) ^ 2
    + frac t.memory_request (fleetMax Worker.capacity_mem ws) ^ 2
    + frac t.gpu_request (fleetMax Worker.capacity_gpu ws) ^ 2

end SpecModel

/-! Fixtures for the claims the stub violates. -/

def wSmall : Worker := { id := "w1", capacity_cpu := 1, capacity_mem := 4 }

def tHeavyA : Task := { id := "t1", estimated_sec := 5, cpu_request := 1, memory_request := 1 }

def tHeavyB : Task := { id := "t2", estimated_sec := 5, cpu_request := 1, memory_request := 1 }

def reqOvercommit : PlanRequest := { tasks := [tHeavyA, tHeavyB], workers := [wSmall] }

def wBig1 : Worker := { id := "w1", capacity_cpu := 10, capacity_mem := 10 }

def wBig2 : Worker := { id := "w2", capacity_cpu := 10, capacity_mem := 10 }

def tUnit1 : Task := { id := "t1", estimated_sec := 1, cpu_request := 1, memory_request := 1 }

def tUnit2 : Task := { id := "t2", estimated_sec := 1, cpu_request := 1, memory_request := 1 }

def reqPair : PlanRequest := { tasks := [tUnit1, tUnit2], workers := [wBig1, wBig2] }

/-- Worker `w1` after the stub's own first assignment (`t1 → w1`) is
committed in the pass. -/
def stateW1 : SpecModel.WorkerState :=
  { worker := wBig1, committed_cpu := 1, committed_mem := 1 }

/-- Worker `w2` untouched in the pass. -/
def stateW2 : SpecModel.WorkerState := { worker := wBig2 }

def tLargeTask : Task := { id := "t2", estimated_sec := 1, cpu_request := 5, memory_request := 5 }

def reqOrder : PlanRequest := { tasks := [tUnit1, tLargeTask], workers := [wBig1, wBig2] }

def reqOrderRev : PlanRequest := { tasks := [tLargeTask, tUnit1], workers := [wBig1, wBig2] }

/-- C2 fails on the code: with a single worker of cpu capacity 1 and two
tasks each requesting cpu 1, the stub round-robins both onto that worker,
allocating cpu 2 > capacity 1. -/
theorem plan_overcommits_capacity :
    workerCpuAllocated reqOvercommit (PlannerServicer.Plan reqOvercommit) "w1" = 2
    ∧ wSmall.capacity_cpu = 1
    ∧ ¬ workerCpuAllocated reqOvercommit (PlannerServicer.Plan reqOvercommit) "w1"
        ≤ wSmall.capacity_cpu := by
  have e12 : (("t1" : String) == "t2") = false := by decide
  have e21 : (("t2" : String) == "t1") = false := by decide
  have h : workerCpuAllocated reqOvercommit (PlannerServicer.Plan reqOvercommit) "w1" = 2 := by
    norm_num [workerCpuAllocated, taskCpuRequest, reqOvercommit,
      PlannerServicer.Plan, planLoop, wSmall, tHeavyA, tHeavyB, pyInt, e12, e21]
  refine ⟨h, rfl, ?_⟩
  rw [h]
  norm_num [wSmall]

/-- C3 fails on the code: at `reqPair` the stub assigns the second task to
`w2`, yet `w1` is also a candidate and has a strictly smaller
fragmentation score, so the chosen worker is not a score-minimizing
candidate. -/
theorem plan_not_best_fit :
    ((PlannerServicer.Plan reqPair).assignments.map
        (fun a => (a.task_id, a.worker_id)) = [("t1", "w1"), ("t2", "w2")])
    ∧ SpecModel.isCandidate stateW1 tUnit2
    ∧ SpecModel.isCandidate stateW2 tUnit2
    ∧ SpecModel.scoreSq stateW1 tUnit2 < SpecModel.scoreSq stateW2 tUnit2 := by
  refine ⟨?_, ?_, ?_, ?_⟩
  · norm_num [PlannerServicer.Plan, planLoop, reqPair, tUnit1, tUnit2, wBig1, wBig2, pyInt]
  · refine ⟨?_, ?_, ?_⟩ <;>
      norm_num [SpecModel.residualCpu, SpecModel.residualMem, SpecModel.residualGpu,
        stateW1, wBig1, tUnit2]
  · refine ⟨?_, ?_, ?_⟩ <;>
      norm_num [SpecModel.residualCpu, SpecModel.residualMem, SpecModel.residualGpu,
        stateW2, wBig2, tUnit2]
  · norm_num [SpecModel.scoreSq, SpecModel.frac, SpecModel.residualCpu,
      SpecModel.residualMem, SpecModel.residualGpu, stateW1, stateW2, wBig1, wBig2, tUnit2]

/-- C5 fails on the code: with an empty worker list the stub still emits
one assignment per task (none of them unplaced) and reports the constant
`"stub plan"`, not `"rejected-all"`. -/
theorem plan_empty_registry_not_rejected :
    (PlannerServicer.Plan reqNoWorkers).assignments.length = 1
    ∧ (PlannerServicer.Plan reqNoWorkers).unplaced_task_id = []
    ∧ (PlannerServicer.Plan reqNoWorkers).status_message ≠ "rejected-all" := by
  refine ⟨rfl, rfl, ?_⟩
  decide

/-- C6 fails on the code: at `reqCompl` every task is placed and the
unplaced list is empty, yet the status message is not `"success"` — it is
the constant `"stub plan"`. -/
theorem plan_status_not_success :
    (PlannerServicer.Plan reqCompl).unplaced_task_id = []
    ∧ (PlannerServicer.Plan reqCompl).assignments.length = reqCompl.tasks.length
    ∧ (PlannerServicer.Plan reqCompl).status_message ≠ "success" := by
  refine ⟨rfl, rfl, ?_⟩
  decide

/-- C7 fails on the code: `tLargeTask` has the strictly larger normalized
request norm, yet the stub processes submission order — submitted second
it is handled second (getting the index-1 worker), and permuting the
submission order permutes the processing order, which a sort-before-pack
would make impossible. -/
theorem plan_ignores_norm_order :
    SpecModel.normRequestSq reqOrder.workers tUnit1
        < SpecModel.normRequestSq reqOrder.workers tLargeTask
    ∧ ((PlannerServicer.Plan reqOrder).assignments.map
        (fun a => (a.task_id, a.worker_id)) = [("t1", "w1"), ("t2", "w2")])
    ∧ ((PlannerServicer.Plan reqOrderRev).assignments.map
        (fun a => (a.task_id, a.worker_id)) = [("t2", "w1"), ("t1", "w2")]) := by
  refine ⟨?_, ?_, ?_⟩
  · norm_num [SpecModel.normRequestSq, SpecModel.frac, SpecModel.fleetMax,
      reqOrder, tUnit1, tLargeTask, wBig1, wBig2, max_def]
  · norm_num [PlannerServicer.Plan, planLoop, reqOrder, tUnit1, tLargeTask,
      wBig1, wBig2, pyInt]
  · norm_num [PlannerServicer.Plan, planLoop, reqOrderRev, tUnit1, tLargeTask,
      wBig1, wBig2, pyInt]

end Scheduler
